import Mathlib

/-!
Verification development for the whatsapp-backend repository.

The repository is a corpus of near-duplicate single-file servers that manage
one WhatsApp connection.  We embed, faithfully to each source file:

* `P0`  — the Baileys variant in `src/unnamed/part_000` (the variant with the
  `reconnectAttempts` counter, `MAX_RECONNECT_ATTEMPTS`, backoff delays and a
  `/reset` route).  Its connection lifecycle is modelled as a step function on
  an explicit state record; scheduled `setTimeout(connectToWhatsApp, d)` calls
  are modelled as a pending-timer list carried in the state, and each step also
  reports the store-clear operations it performs and the delays it schedules.
* `WPP` — the WPPConnect variant at the top of `src/index.js` (lines 25-114):
  the `catchQR` / `statusFind` / `onStateChange` callbacks as a step function.
* `V2`  — the Baileys variant in `src/index.js` lines 231-355 (no attempt
  counter, `messages.upsert` handler without a text guard or try/catch).
* `V3`  — the Baileys variant in `src/index.js` lines 405-530 (the `/send`
  route that checks `connectionStatus !== 'connected'` and returns HTTP 400,
  and appends `@s.whatsapp.net` unconditionally).

JavaScript strings are modelled as `List Char`; `undefined`-able values as
`Option`.  The session directory (`auth_info_baileys`) is modelled by a
Boolean `authPresent`; the guarded `existsSync`/`rmSync` block that empties it
is the implementation of the session store `clear()` operation and is counted
as one store clear.
-/

/-- The values the global `connectionStatus` string takes across the variants. -/
inductive Status
  | disconnected
  | initializing
  | starting
  | connecting
  | scanning
  | connected
  | reconnecting
  | logged_out
  | error
  deriving DecidableEq

namespace P0

/-- `const MAX_RECONNECT_ATTEMPTS = 10;` (part_000 line 22). -/
def MAX_RECONNECT_ATTEMPTS : Nat := 10

/-- `DisconnectReason.loggedOut` from the Baileys library (numeric code 401). -/
def loggedOutCode : Nat := 401

/-- The mutable globals of part_000 that the lifecycle touches, plus the list
of pending `setTimeout(connectToWhatsApp, _)` timers (delays, in scheduling
order).  `sockPresent` models `sock !== null`; `authPresent` models the
existence of the `auth_info_baileys` session directory. -/
structure St where
  connectionStatus : Status
  qrCodeData : Option (List Char)
  sockPresent : Bool
  authPresent : Bool
  reconnectAttempts : Nat
  pending : List Nat
  deriving DecidableEq

/-- Observable side effects of processing one event: how many session-store
`clear()` operations ran (the guarded `rmSync` block), and which reconnect
delays were newly scheduled. -/
structure Out where
  storeClears : Nat
  sched : List Nat
  deriving DecidableEq

def noOut : Out := ⟨0, []⟩

/-- Events driving the part_000 lifecycle: the `connection.update` callback
cases (`qr`, `close` with the disconnect status code, `open`), a scheduled
`connectToWhatsApp` timer firing (`attemptOk` is whether the awaited setup
succeeds or throws), and the `GET /reset` route. -/
inductive Ev
  | qr (renderOk : Bool) (payload : List Char)
  | connClose (statusCode : Option Nat)
  | connOpen
  | timerFire (attemptOk : Bool)
  | reset
  deriving DecidableEq

/-- One event of the part_000 lifecycle (source lines 34-106 and 163-181).
Socket events (`qr`, `close`, `open`) only have an effect while a socket is
present.  The `close` handler first clears `qrCodeData` and drops the socket,
then branches on `statusCode === DisconnectReason.loggedOut`: logout clears
the session store, zeroes the counter and schedules one reconnect in 3000 ms;
any other cause increments the counter and schedules a reconnect after
`Math.min(5000 * reconnectAttempts, 30000)` ms.  A timer firing runs
`connectToWhatsApp`: at `reconnectAttempts >= MAX_RECONNECT_ATTEMPTS` it only
sets `connectionStatus = 'error'` and returns (no new timer); otherwise the
try block sets `'connecting'` and, on success, installs a fresh socket (the
auth directory is (re)created by `useMultiFileAuthState`), while the catch
block sets `'error'`, increments the counter and schedules a retry in
10000 ms.  `GET /reset` ends the socket, clears the store, zeroes everything
and schedules a reconnect in 2000 ms; it cancels no pending timer. -/
def step (s : St) (e : Ev) : St × Out :=
  match e with
  | .qr renderOk payload =>
      if s.sockPresent = false then (s, noOut)
      else if renderOk then
        ({ s with qrCodeData := some payload,
                  connectionStatus := Status.scanning,
                  reconnectAttempts := 0 }, noOut)
      else (s, noOut)
  | .connClose statusCode =>
      if s.sockPresent = false then (s, noOut)
      else
        let s1 : St := { s with qrCodeData := none, sockPresent := false }
        if statusCode = some loggedOutCode then
          ({ s1 with connectionStatus := Status.logged_out,
                     authPresent := false,
                     reconnectAttempts := 0,
                     pending := s1.pending ++ [3000] },
           ⟨1, [3000]⟩)
        else
          let delay := min (5000 * (s.reconnectAttempts + 1)) 30000
          ({ s1 with connectionStatus := Status.reconnecting,
                     reconnectAttempts := s.reconnectAttempts + 1,
                     pending := s1.pending ++ [delay] },
           ⟨0, [delay]⟩)
  | .connOpen =>
      if s.sockPresent = false then (s, noOut)
      else ({ s with connectionStatus := Status.connected,
                     qrCodeData := none,
                     reconnectAttempts := 0 }, noOut)
  | .timerFire attemptOk =>
      match s.pending with
      | [] => (s, noOut)
      | _ :: rest =>
          if MAX_RECONNECT_ATTEMPTS ≤ s.reconnectAttempts then
            ({ s with connectionStatus := Status.error, pending := rest }, noOut)
          else if attemptOk then
            ({ s with connectionStatus := Status.connecting,
                      sockPresent := true,
                      authPresent := true,
                      pending := rest }, noOut)
          else
            ({ s with connectionStatus := Status.error,
                      reconnectAttempts := s.reconnectAttempts + 1,
                      pending := rest ++ [10000] }, ⟨0, [10000]⟩)
  | .reset =>
      ({ connectionStatus := Status.disconnected,
         qrCodeData := none,
         sockPresent := false,
         authPresent := false,
         reconnectAttempts := 0,
         pending := s.pending ++ [2000] }, ⟨1, [2000]⟩)

/-- Run a list of events, collecting every scheduled reconnect delay in order. -/
def run (s : St) : List Ev → St × List Nat
  | [] => (s, [])
  | e :: es =>
      let r := step s e
      let rr := run r.1 es
      (rr.1, r.2.sched ++ rr.2)

/-- The connection events named by the spec invariant: QR issuance, open,
close (any cause) and manual reset — i.e. everything except a scheduled
`connectToWhatsApp` timer firing. -/
def isConnEv : Ev → Bool
  | .qr _ _ => true
  | .connClose _ => true
  | .connOpen => true
  | .reset => true
  | .timerFire _ => false

/-- The pairing-artifact invariant: `qrCodeData` is populated only in status
`scanning` (part_000 has no code-based pairing mode). -/
def qrOnlyWhileScanning (s : St) : Prop :=
  s.qrCodeData ≠ none → s.connectionStatus = Status.scanning

instance (s : St) : Decidable (qrOnlyWhileScanning s) := by
  unfold qrOnlyWhileScanning; infer_instance

end P0

namespace WPP

/-- The `statusFind(statusSession, _)` argument values that the WPPConnect
variant inspects (src/index.js lines 37-45). -/
inductive SessionStatus
  | isLogged
  | inChat
  | notLogged
  | browserClose
  | other
  deriving DecidableEq

/-- The connection-relevant globals of the WPPConnect variant. -/
structure WSt where
  connectionStatus : Status
  qrCodeData : Option (List Char)
  deriving DecidableEq

/-- Connection events of the WPPConnect variant: `catchQR` (a fresh QR),
`statusFind`, `wppconnect.create` resolving or throwing (lines 77-79 and
108-113), `onStateChange` with a disconnecting or other state (lines 100-106),
and the `GET /reset` route (lines 159-184). -/
inductive WEv
  | catchQR (payload : List Char)
  | statusFind (st : SessionStatus)
  | createOk
  | createFail
  | stateChangeBad
  | stateChangeOther
  | reset
  deriving DecidableEq

/-- One event of the WPPConnect variant.  Note that the `notLogged` /
`browserClose` branch of `statusFind` and the disconnecting branch of
`onStateChange` set `connectionStatus = 'disconnected'` without touching
`qrCodeData`, and the catch block sets `'error'` without touching it either. -/
def wstep (s : WSt) (e : WEv) : WSt :=
  match e with
  | .catchQR payload =>
      { connectionStatus := Status.scanning, qrCodeData := some payload }
  | .statusFind st =>
      match st with
      | .isLogged => { connectionStatus := Status.connected, qrCodeData := none }
      | .inChat => { connectionStatus := Status.connected, qrCodeData := none }
      | .notLogged => { s with connectionStatus := Status.disconnected }
      | .browserClose => { s with connectionStatus := Status.disconnected }
      | .other => s
  | .createOk => { connectionStatus := Status.connected, qrCodeData := none }
  | .createFail => { s with connectionStatus := Status.error }
  | .stateChangeBad => { s with connectionStatus := Status.disconnected }
  | .stateChangeOther => s
  | .reset => { connectionStatus := Status.disconnected, qrCodeData := none }

/-- Run a list of WPPConnect events. -/
def wrun (s : WSt) : List WEv → WSt
  | [] => s
  | e :: es => wrun (wstep s e) es

/-- State at process start: `connectionStatus = 'disconnected'`, no QR. -/
def winit : WSt := ⟨Status.disconnected, none⟩

end WPP

/-! ### The inbound-message model shared by the Baileys variants

`msg.key.fromMe`, `msg.key.remoteJid`, `msg.message` with
`msg.message.conversation` and `msg.message.extendedTextMessage?.text`.
The extracted text is
`msg.message.conversation || msg.message.extendedTextMessage?.text || ''`;
JavaScript `||` skips an empty string, which `jsOr` reproduces. -/

structure ExtendedText where
  text : Option (List Char)
  deriving DecidableEq

structure MessageContent where
  conversation : Option (List Char)
  extendedTextMessage : Option ExtendedText
  deriving DecidableEq

structure MessageKey where
  fromMe : Bool
  remoteJid : List Char
  deriving DecidableEq

structure WAMessage where
  key : MessageKey
  message : Option MessageContent
  deriving DecidableEq

/-- JavaScript `a || b` on string-valued `a` (`undefined` or a string). -/
def jsOr (a : Option (List Char)) (b : List Char) : List Char :=
  match a with
  | some s => if s = [] then b else s
  | none => b

/-- `msg.message.conversation || msg.message.extendedTextMessage?.text || ''`. -/
def extractText (mc : MessageContent) : List Char :=
  jsOr mc.conversation (jsOr (mc.extendedTextMessage.bind ExtendedText.text) [])

/-- The text the relay extracts from a message (empty when `msg.message` is
absent, in which case the handlers skip the message anyway). -/
def msgText (m : WAMessage) : List Char :=
  match m.message with
  | some mc => extractText mc
  | none => []

/-- Log entries the `messages.upsert` handlers produce: the receipt line
`'Message from:', remoteJid, ':', text` and the error line for a failed
reply send. -/
inductive LogEntry
  | recv (jid text : List Char)
  | sendErr
  deriving DecidableEq

/-- `'@s.whatsapp.net'` as a character list. -/
def sWhatsappNet : List Char := ("@s.whatsapp.net").data

/-- HTTP result of a `/send` request: status code, whether the body was
`{success: true}`, and the conversation id a send was attempted to
(`none` when no send was attempted). -/
structure SendResponse where
  code : Nat
  success : Bool
  attempted : Option (List Char)
  deriving DecidableEq

namespace P0

/-- Reply template of part_000 line 119:
`Hello! I am an AI assistant. I received: "<text>"`. -/
def replyText (t : List Char) : List Char :=
  ("Hello! I am an AI assistant. I received: \"").data ++ t ++ ("\"").data

/-- The body of the part_000 `messages.upsert` loop for one message
(lines 112-126): skip when `msg.key.fromMe` or `msg.message` is absent;
extract the text and skip when it is empty; otherwise log the receipt and
attempt the auto-reply, catching a send failure as one further log line.
`sendOk` is the outcome oracle for `sock.sendMessage`. -/
def handleOne (sendOk : WAMessage → Bool) (m : WAMessage) :
    List LogEntry × List (List Char × List Char) :=
  match m.message with
  | none => ([], [])
  | some mc =>
      if m.key.fromMe then ([], [])
      else
        let text := extractText mc
        if text = [] then ([], [])
        else if sendOk m then
          ([LogEntry.recv m.key.remoteJid text],
           [(m.key.remoteJid, replyText text)])
        else
          ([LogEntry.recv m.key.remoteJid text, LogEntry.sendErr],
           [(m.key.remoteJid, replyText text)])

/-- The part_000 `messages.upsert` loop over `m.messages` (lines 110-128);
the try/catch around each send lets the loop continue past failures. -/
def upsert (sendOk : WAMessage → Bool) :
    List WAMessage → List LogEntry × List (List Char × List Char)
  | [] => ([], [])
  | m :: rest =>
      let r := handleOne sendOk m
      let rr := upsert sendOk rest
      (r.1 ++ rr.1, r.2 ++ rr.2)

/-- `const id = to.includes('@') ? to : ` `${to}@s.whatsapp.net` (line 188). -/
def jidNormalize (toAddr : List Char) : List Char :=
  if ('@') ∈ toAddr then toAddr else toAddr ++ sWhatsappNet

/-- The part_000 `POST /send` handler (lines 183-194): it guards only on
`!sock` (HTTP 500, `{error: 'Not connected'}`, nothing sent); with a socket
present it normalizes `to` and attempts the send whatever
`connectionStatus` holds, answering 200 `{success: true}` or 500 `{error}`. -/
def sendEndpoint (sockPresent : Bool) (connectionStatus : Status)
    (toAddr : List Char) (sendOk : Bool) : SendResponse :=
  if sockPresent = false then ⟨500, false, none⟩
  else
    let id := jidNormalize toAddr
    if sendOk then ⟨200, true, some id⟩ else ⟨500, false, some id⟩

end P0

namespace V2

/-- Reply template of src/index.js line 297:
`Hello! I am an AI assistant. I received your message: "<text>"`. -/
def replyText (t : List Char) : List Char :=
  ("Hello! I am an AI assistant. I received your message: \"").data
    ++ t ++ ("\"").data

/-- Output of the V2 `messages.upsert` handler: log lines, attempted sends,
and whether the loop ran to completion (`false` when an uncaught send
rejection aborted it). -/
structure Out where
  logs : List LogEntry
  sends : List (List Char × List Char)
  completed : Bool
  deriving DecidableEq

/-- The V2 `messages.upsert` loop (src/index.js lines 288-302): it filters
only on `!msg.key.fromMe && msg.message` — there is no emptiness check on the
extracted text — logs the receipt, then awaits `sock.sendMessage` with no
try/catch, so a failing send rejects the handler and the remaining messages
of the batch are never processed. -/
def upsert (sendOk : WAMessage → Bool) : List WAMessage → Out
  | [] => ⟨[], [], true⟩
  | m :: rest =>
      match m.message with
      | none => upsert sendOk rest
      | some mc =>
          if m.key.fromMe then upsert sendOk rest
          else
            let text := extractText mc
            if sendOk m then
              let r := upsert sendOk rest
              ⟨LogEntry.recv m.key.remoteJid text :: r.logs,
               (m.key.remoteJid, replyText text) :: r.sends, r.completed⟩
            else
              ⟨[LogEntry.recv m.key.remoteJid text],
               [(m.key.remoteJid, replyText text)], false⟩

/-- `const id = to.includes('@') ? to : to + '@s.whatsapp.net'`
(src/index.js line 349). -/
def jidNormalize (toAddr : List Char) : List Char :=
  if ('@') ∈ toAddr then toAddr else toAddr ++ sWhatsappNet

end V2

namespace V3

/-- The V3 `POST /send` handler (src/index.js lines 519-530): HTTP 400
`{error: 'Not connected'}` unless a socket is present and
`connectionStatus === 'connected'`; the send target is
`` `${to}@s.whatsapp.net` `` — the suffix is appended unconditionally. -/
def sendEndpoint (sockPresent : Bool) (connectionStatus : Status)
    (toAddr : List Char) (sendOk : Bool) : SendResponse :=
  if sockPresent = false ∨ connectionStatus ≠ Status.connected then
    ⟨400, false, none⟩
  else
    let id := toAddr ++ sWhatsappNet
    if sendOk then ⟨200, true, some id⟩ else ⟨500, false, some id⟩

end V3

namespace WPP

/-- `'@c.us'` as a character list. -/
def cUs : List Char := ("@c.us").data

/-- `const chatId = to.includes('@') ? to : ` `${to}@c.us` (src/index.js
line 151). -/
def chatIdNormalize (toAddr : List Char) : List Char :=
  if ('@') ∈ toAddr then toAddr else toAddr ++ cUs

end WPP

/-- The C4 scenario trace: five transient closures, each followed by the
scheduled reconnect attempt running successfully (so a socket is present again
for the next closure), with no intervening `open` or QR event. -/
def c4Trace (k1 k2 k3 k4 k5 : Option Nat) : List P0.Ev :=
  [P0.Ev.connClose k1, P0.Ev.timerFire true,
   P0.Ev.connClose k2, P0.Ev.timerFire true,
   P0.Ev.connClose k3, P0.Ev.timerFire true,
   P0.Ev.connClose k4, P0.Ev.timerFire true,
   P0.Ev.connClose k5]

/-- The part_000 events on which `reconnectAttempts` is set to zero:
successful QR rendering (entering `scanning`), `open` (entering `connected`),
an authoritative-logout closure (entering `logged_out`), and `GET /reset`
(entering `disconnected`). -/
def zeroingEv (e : P0.Ev) : Prop :=
  (∃ p, e = P0.Ev.qr true p) ∨ e = P0.Ev.connOpen
    ∨ e = P0.Ev.connClose (some P0.loggedOutCode) ∨ e = P0.Ev.reset

/-- Preservation of the pairing-artifact invariant by every part_000
connection event (QR issuance, open, close with any cause, manual reset). -/
theorem qr_inv_step (s : P0.St) (e : P0.Ev) (he : P0.isConnEv e = true)
    (h : P0.qrOnlyWhileScanning s) : P0.qrOnlyWhileScanning (P0.step s e).1 := by
  unfold P0.qrOnlyWhileScanning at h ⊢
  cases e with
  | qr renderOk payload =>
      by_cases hs : s.sockPresent = false
      · simp only [P0.step, hs, if_pos]; exact h
      · cases renderOk with
        | false => simp only [P0.step, hs]; simp; exact h
        | true => simp [P0.step, hs]
  | connClose c =>
      by_cases hs : s.sockPresent = false
      · simp only [P0.step, hs, if_pos]; exact h
      · by_cases hc : c = some P0.loggedOutCode <;> simp [P0.step, hs, hc]
  | connOpen =>
      by_cases hs : s.sockPresent = false
      · simp only [P0.step, hs, if_pos]; exact h
      · simp [P0.step, hs]
  | timerFire a => simp [P0.isConnEv] at he
  | reset => simp [P0.step]

/-- C1: for the part_000 machine, a closure event carrying the authoritative
logout cause (`DisconnectReason.loggedOut`) moves the machine to
`logged_out`, performs exactly one session-store clear leaving the store
empty, and schedules exactly one reconnect (3000 ms); the cleared state still
holds when that single scheduled attempt fires, and the fired attempt enters
`connecting` without performing any further store clear. -/
theorem c1_logout_clear_once_before_reconnect (s : P0.St)
    (hsock : s.sockPresent = true) (hpend : s.pending = []) :
    (P0.step s (P0.Ev.connClose (some P0.loggedOutCode))).1.connectionStatus
        = Status.logged_out
    ∧ (P0.step s (P0.Ev.connClose (some P0.loggedOutCode))).1.authPresent = false
    ∧ (P0.step s (P0.Ev.connClose (some P0.loggedOutCode))).2.storeClears = 1
    ∧ (P0.step s (P0.Ev.connClose (some P0.loggedOutCode))).2.sched = [3000]
    ∧ (P0.step s (P0.Ev.connClose (some P0.loggedOutCode))).1.pending = [3000]
    ∧ (P0.step (P0.step s (P0.Ev.connClose (some P0.loggedOutCode))).1
        (P0.Ev.timerFire true)).1.connectionStatus = Status.connecting
    ∧ (P0.step (P0.step s (P0.Ev.connClose (some P0.loggedOutCode))).1
        (P0.Ev.timerFire true)).2.storeClears = 0 := by
  obtain ⟨st, qr, sk, au, ra, pd⟩ := s
  cases hsock
  cases hpend
  simp [P0.step, P0.noOut, P0.MAX_RECONNECT_ATTEMPTS]

/-- C1 witness: the property evaluated from the connected state with an empty
timer queue. -/
theorem c1_witness :
    (P0.step ⟨Status.connected, none, true, true, 0, []⟩
        (P0.Ev.connClose (some P0.loggedOutCode))).1.authPresent = false :=
  (c1_logout_clear_once_before_reconnect
    ⟨Status.connected, none, true, true, 0, []⟩ rfl rfl).2.1

/-- C2 counterexample: in the WPPConnect variant, after a QR issuance
(`catchQR`) followed by a closure signalled through
`statusFind('notLogged')`, the reached state has `connectionStatus =
'disconnected'` while `qrCodeData` is still populated — so the pairing
artifact is non-absent outside `scanning`/`pairing`. -/
theorem c2_counterexample :
    (WPP.wrun WPP.winit
      [WPP.WEv.catchQR ['x'],
       WPP.WEv.statusFind WPP.SessionStatus.notLogged]).qrCodeData ≠ none
    ∧ (WPP.wrun WPP.winit
        [WPP.WEv.catchQR ['x'],
         WPP.WEv.statusFind WPP.SessionStatus.notLogged]).connectionStatus
        = Status.disconnected
    ∧ Status.disconnected ≠ Status.scanning := by decide

/-- C2 amended: for the part_000 (Baileys) machine the invariant does hold:
across arbitrary interleavings of QR issuance, connection open, connection
close with any cause and manual reset, `qrCodeData` is non-absent only while
`connectionStatus` is `scanning`.  (The WPPConnect variant violates the
original claim, see the counterexample.) -/
theorem c2_amended_qr_only_while_scanning (s : P0.St) (evs : List P0.Ev)
    (hc : evs.all P0.isConnEv = true) (h : P0.qrOnlyWhileScanning s) :
    P0.qrOnlyWhileScanning (P0.run s evs).1 := by
  induction evs generalizing s with
  | nil => simpa [P0.run] using h
  | cons e es ih =>
      simp only [List.all_cons, Bool.and_eq_true] at hc
      simpa [P0.run] using ih (P0.step s e).1 hc.2 (qr_inv_step s e hc.1 h)

/-- C2 witness: the amended invariant evaluated on a concrete trace. -/
theorem c2_witness :
    P0.qrOnlyWhileScanning
      (P0.run ⟨Status.connecting, none, true, true, 0, []⟩
        [P0.Ev.qr true ['x'], P0.Ev.connClose none, P0.Ev.reset]).1 :=
  c2_amended_qr_only_while_scanning
    ⟨Status.connecting, none, true, true, 0, []⟩
    [P0.Ev.qr true ['x'], P0.Ev.connClose none, P0.Ev.reset]
    (by decide) (by decide)

/-- C3 counterexample: in the part_000 `POST /send` handler, with a socket
present but `connectionStatus = 'reconnecting'` (not connected) the send IS
attempted and answered 200, and with no socket the response code is 500, not
400 — both contradicting the claimed contract. -/
theorem c3_counterexample :
    (P0.sendEndpoint true Status.reconnecting ['1'] true).attempted ≠ none
    ∧ (P0.sendEndpoint true Status.reconnecting ['1'] true).code = 200
    ∧ (P0.sendEndpoint false Status.reconnecting ['1'] true).code = 500 := by
  decide

/-- C3 amended: the claimed contract (400 and no send unless connected, 500
`{error}` on send failure, 200 `{success: true}` otherwise) holds exactly for
the `/send` handler of the variant at src/index.js lines 519-530 (`V3`); the
part_000 handler instead guards only on the socket handle: absent handle
gives HTTP 500 `{error: 'Not connected'}` with no send, and with a handle
present the send is attempted regardless of `connectionStatus`. -/
theorem c3_amended_send_contract (sock : Bool) (st : Status)
    (toAddr : List Char) (ok : Bool) :
    ((sock = false ∨ st ≠ Status.connected) →
        V3.sendEndpoint sock st toAddr ok = ⟨400, false, none⟩)
    ∧ (sock = true → st = Status.connected →
        (V3.sendEndpoint sock st toAddr ok).attempted
            = some (toAddr ++ sWhatsappNet)
        ∧ (V3.sendEndpoint sock st toAddr ok).code = (if ok then 200 else 500)
        ∧ (V3.sendEndpoint sock st toAddr ok).success = ok)
    ∧ (sock = false → P0.sendEndpoint sock st toAddr ok = ⟨500, false, none⟩)
    ∧ (sock = true →
        (P0.sendEndpoint sock st toAddr ok).attempted
            = some (P0.jidNormalize toAddr)
        ∧ (P0.sendEndpoint sock st toAddr ok).code = (if ok then 200 else 500)
        ∧ (P0.sendEndpoint sock st toAddr ok).success = ok) := by
  refine ⟨fun h => ?_, fun hs hc => ?_, fun hs => ?_, fun hs => ?_⟩
  · rcases h with h | h <;> cases ok <;> simp [V3.sendEndpoint, h]
  · cases ok <;> simp [V3.sendEndpoint, hs, hc]
  · cases ok <;> simp [P0.sendEndpoint, hs]
  · cases ok <;> simp [P0.sendEndpoint, hs]

/-- C3 witness: the amended contract evaluated at concrete requests. -/
theorem c3_witness :
    V3.sendEndpoint true Status.reconnecting ['1'] true = ⟨400, false, none⟩
    ∧ P0.sendEndpoint false Status.connected ['1'] true = ⟨500, false, none⟩ :=
  ⟨(c3_amended_send_contract true Status.reconnecting ['1'] true).1
      (Or.inr (by decide)),
   (c3_amended_send_contract false Status.connected ['1'] true).2.2.1 rfl⟩

/-- C4: five consecutive transient (non-logged-out) closures in the part_000
machine, with the scheduled attempt re-establishing a socket in between and
no intervening `open` or QR event, drive `reconnectAttempts` from 0 to 5, and
the scheduled retry delays are `[5000, 10000, 15000, 20000, 25000]` —
monotonically non-decreasing and each at most the 30000 ms cap. -/
theorem c4_backoff (s : P0.St) (k1 k2 k3 k4 k5 : Option Nat)
    (hs : s.sockPresent = true) (ha : s.reconnectAttempts = 0)
    (hp : s.pending = [])
    (h1 : k1 ≠ some P0.loggedOutCode) (h2 : k2 ≠ some P0.loggedOutCode)
    (h3 : k3 ≠ some P0.loggedOutCode) (h4 : k4 ≠ some P0.loggedOutCode)
    (h5 : k5 ≠ some P0.loggedOutCode) :
    (P0.run s (c4Trace k1 k2 k3 k4 k5)).1.reconnectAttempts = 5
    ∧ (P0.run s (c4Trace k1 k2 k3 k4 k5)).2
        = [5000, 10000, 15000, 20000, 25000]
    ∧ List.Chain' (· ≤ ·) (P0.run s (c4Trace k1 k2 k3 k4 k5)).2
    ∧ ∀ d ∈ (P0.run s (c4Trace k1 k2 k3 k4 k5)).2, d ≤ 30000 := by
  obtain ⟨st, qr, sk, au, ra, pd⟩ := s
  cases hs
  cases ha
  cases hp
  refine ⟨?_, ?_, ?_, ?_⟩ <;>
    simp [c4Trace, P0.run, P0.step, P0.noOut, P0.MAX_RECONNECT_ATTEMPTS,
      h1, h2, h3, h4, h5]

/-- C4 witness: the backoff scenario evaluated at concrete status codes. -/
theorem c4_witness :
    (P0.run ⟨Status.connected, none, true, true, 0, []⟩
      (c4Trace (some 428) (some 408) none (some 515) (some 440))).2
      = [5000, 10000, 15000, 20000, 25000] :=
  (c4_backoff ⟨Status.connected, none, true, true, 0, []⟩
    (some 428) (some 408) none (some 515) (some 440)
    rfl rfl rfl (by decide) (by decide) (by decide) (by decide) (by decide)).2.1

/-- C5: once `reconnectAttempts` has reached `MAX_RECONNECT_ATTEMPTS`, a
firing connection attempt only sets `connectionStatus = 'error'` and
schedules no retry; from the resulting quiescent state (no socket, no pending
timer) every event other than `GET /reset` leaves the machine completely
unchanged, while `/reset` zeroes the counter, sets `'disconnected'` and
schedules a fresh connect attempt. -/
theorem c5_retry_budget_exhaustion (s : P0.St) (e : P0.Ev) (ok : Bool) :
    (P0.MAX_RECONNECT_ATTEMPTS ≤ s.reconnectAttempts → s.pending ≠ [] →
      (P0.step s (P0.Ev.timerFire ok)).1.connectionStatus = Status.error
      ∧ (P0.step s (P0.Ev.timerFire ok)).2.sched = []
      ∧ (P0.step s (P0.Ev.timerFire ok)).1.pending = s.pending.tail
      ∧ (P0.step s (P0.Ev.timerFire ok)).1.reconnectAttempts
          = s.reconnectAttempts)
    ∧ (s.pending = [] → s.sockPresent = false → e ≠ P0.Ev.reset →
        P0.step s e = (s, P0.noOut))
    ∧ ((P0.step s P0.Ev.reset).1.reconnectAttempts = 0
       ∧ (P0.step s P0.Ev.reset).2.sched = [2000]
       ∧ (P0.step s P0.Ev.reset).1.connectionStatus = Status.disconnected) := by
  refine ⟨fun hmax hpend => ?_, fun hpend hsock hne => ?_, ?_⟩
  · match hp : s.pending with
    | [] => exact absurd hp hpend
    | d :: rest => simp [P0.step, hp, hmax, P0.noOut]
  · cases e with
    | qr r p => simp [P0.step, hsock]
    | connClose c => simp [P0.step, hsock]
    | connOpen => simp [P0.step, hsock]
    | timerFire a => simp [P0.step, hpend]
    | reset => exact absurd rfl hne
  · simp [P0.step]

/-- C5 witness: exhaustion and quiescence evaluated at concrete states. -/
theorem c5_witness :
    (P0.step ⟨Status.reconnecting, none, false, true, 10, [10000]⟩
        (P0.Ev.timerFire true)).1.connectionStatus = Status.error
    ∧ P0.step ⟨Status.error, none, false, true, 10, []⟩ P0.Ev.connOpen
        = (⟨Status.error, none, false, true, 10, []⟩, P0.noOut)
    ∧ (P0.step ⟨Status.error, none, false, true, 10, []⟩
        P0.Ev.reset).1.reconnectAttempts = 0 :=
  ⟨((c5_retry_budget_exhaustion
      ⟨Status.reconnecting, none, false, true, 10, [10000]⟩
      P0.Ev.connOpen true).1 (by decide) (by decide)).1,
   (c5_retry_budget_exhaustion ⟨Status.error, none, false, true, 10, []⟩
      P0.Ev.connOpen true).2.1 rfl rfl (by decide),
   (c5_retry_budget_exhaustion ⟨Status.error, none, false, true, 10, []⟩
      P0.Ev.connOpen true).2.2.1⟩

/-- C6 counterexample: the `messages.upsert` handler of the Baileys variant at
src/index.js lines 288-302 (`V2`) does not ignore an inbound event from which
no non-empty text can be extracted: a non-self message whose payload has
neither `conversation` nor `extendedTextMessage` text still produces a log
entry and an auto-reply attempt. -/
theorem c6_counterexample :
    extractText ⟨none, none⟩ = []
    ∧ (V2.upsert (fun _ => true)
        [⟨⟨false, ['5','1']⟩, some ⟨none, none⟩⟩]).sends ≠ []
    ∧ (V2.upsert (fun _ => true)
        [⟨⟨false, ['5','1']⟩, some ⟨none, none⟩⟩]).logs ≠ [] := by decide

/-- C6 amended: the part_000 relay does implement both filters: an event with
`fromMe` set produces no log entry and no reply; an event from which no
non-empty text can be extracted produces no log entry and no reply; an event
passing both filters produces exactly one auto-reply (the echo template to
the sender) and a receipt log entry, whatever the send outcome.  (The `V2`
relay lacks the empty-text filter, see the counterexample.) -/
theorem c6_amended_relay_filters (sendOk : WAMessage → Bool) (m : WAMessage) :
    (m.key.fromMe = true → P0.handleOne sendOk m = ([], []))
    ∧ (msgText m = [] → P0.handleOne sendOk m = ([], []))
    ∧ (m.key.fromMe = false → msgText m ≠ [] →
        (P0.handleOne sendOk m).2
            = [(m.key.remoteJid, P0.replyText (msgText m))]
        ∧ LogEntry.recv m.key.remoteJid (msgText m)
            ∈ (P0.handleOne sendOk m).1) := by
  obtain ⟨⟨fm, jid⟩, msg⟩ := m
  cases msg with
  | none =>
      refine ⟨fun _ => rfl, fun _ => rfl, fun _ ht => absurd rfl ht⟩
  | some mc =>
      refine ⟨fun hf => ?_, fun ht => ?_, fun hf ht => ?_⟩
      · have hf' : fm = true := hf
        simp [P0.handleOne, hf']
      · have ht' : extractText mc = [] := ht
        simp [P0.handleOne, ht']
      · have hf' : fm = false := hf
        have ht' : ¬ extractText mc = [] := ht
        subst hf'
        simp only [msgText]
        cases hok : sendOk ⟨⟨false, jid⟩, some mc⟩ <;>
          simp [P0.handleOne, ht', hok]

/-- C6 witness: the filters evaluated at a concrete passing message with a
failing send. -/
theorem c6_witness :
    (P0.handleOne (fun _ => false)
        ⟨⟨false, ['5']⟩, some ⟨some ['h','i'], none⟩⟩).2
      = [(['5'], P0.replyText ['h','i'])] :=
  ((c6_amended_relay_filters (fun _ => false)
      ⟨⟨false, ['5']⟩, some ⟨some ['h','i'], none⟩⟩).2.2 rfl (by decide)).1

/-- C7: evaluation at the failing input.  In the `V2` relay
(src/index.js lines 288-302) the auto-reply `await sock.sendMessage(...)` is
not wrapped in try/catch, so when the send for the first batch message fails
the handler aborts: the result records the first receipt and attempted send
and `completed = false`, and the second message of the batch is never logged
nor replied to.  The part_000 relay on the same batch with the same failing
sends processes both messages (each receipt logged, each send attempted, a
send-error log per failure) — the behaviour the claim describes. -/
theorem c7_code_bug_eval :
    (V2.upsert (fun _ => false)
      [⟨⟨false, ['a']⟩, some ⟨some ['h','i'], none⟩⟩,
       ⟨⟨false, ['b']⟩, some ⟨some ['y','o'], none⟩⟩])
      = ⟨[LogEntry.recv ['a'] ['h','i']],
         [(['a'], V2.replyText ['h','i'])], false⟩
    ∧ (P0.upsert (fun _ => false)
        [⟨⟨false, ['a']⟩, some ⟨some ['h','i'], none⟩⟩,
         ⟨⟨false, ['b']⟩, some ⟨some ['y','o'], none⟩⟩]).1
      = [LogEntry.recv ['a'] ['h','i'], LogEntry.sendErr,
         LogEntry.recv ['b'] ['y','o'], LogEntry.sendErr] := by decide

/-- C8 counterexample: `reconnectAttempts` is also reset to 0 on a transition
that enters neither `connected` nor `scanning`: from a state with counter 3,
an authoritative-logout closure zeroes the counter while entering
`logged_out`. -/
theorem c8_counterexample :
    (P0.step ⟨Status.connected, none, true, true, 3, []⟩
        (P0.Ev.connClose (some P0.loggedOutCode))).1.reconnectAttempts = 0
    ∧ (P0.step ⟨Status.connected, none, true, true, 3, []⟩
        (P0.Ev.connClose (some P0.loggedOutCode))).1.connectionStatus
        = Status.logged_out
    ∧ Status.logged_out ≠ Status.connected
    ∧ Status.logged_out ≠ Status.scanning := by decide

/-- C8 amended: across every part_000 event the counter never decreases
except when it is reset to 0, and a reset to 0 (from a non-zero value)
happens exactly on the events entering `connected` (open), `scanning`
(successful QR render), `logged_out` (authoritative-logout closure) or
`disconnected` (manual reset); in particular a transient closure increments
the counter by exactly one. -/
theorem c8_amended_counter_monotone (s : P0.St) (e : P0.Ev) (c : Option Nat) :
    (s.reconnectAttempts ≤ (P0.step s e).1.reconnectAttempts
      ∨ (P0.step s e).1.reconnectAttempts = 0)
    ∧ ((P0.step s e).1.reconnectAttempts = 0 → s.reconnectAttempts ≠ 0 →
        zeroingEv e)
    ∧ (c ≠ some P0.loggedOutCode → s.sockPresent = true →
        (P0.step s (P0.Ev.connClose c)).1.reconnectAttempts
          = s.reconnectAttempts + 1) := by
  refine ⟨?_, ?_, fun hc hs => ?_⟩
  · cases e with
    | qr renderOk payload =>
        by_cases hs : s.sockPresent = false
        · simp [P0.step, hs]
        · cases renderOk <;> simp [P0.step, hs]
    | connClose cc =>
        by_cases hs : s.sockPresent = false
        · simp [P0.step, hs]
        · by_cases hcc : cc = some P0.loggedOutCode <;>
            simp [P0.step, hs, hcc]
    | connOpen =>
        by_cases hs : s.sockPresent = false <;> simp [P0.step, hs]
    | timerFire a =>
        match hp : s.pending with
        | [] => simp [P0.step, hp]
        | d :: rest =>
            by_cases hm : P0.MAX_RECONNECT_ATTEMPTS ≤ s.reconnectAttempts
            · simp [P0.step, hp, hm]
            · cases a <;> simp [P0.step, hp, hm]
    | reset => simp [P0.step]
  · intro h0 hne
    cases e with
    | qr renderOk payload =>
        by_cases hs : s.sockPresent = false
        · rw [show (P0.step s (P0.Ev.qr renderOk payload)).1 = s by
            simp [P0.step, hs]] at h0
          exact absurd h0 hne
        · cases renderOk with
          | false =>
              rw [show (P0.step s (P0.Ev.qr false payload)).1 = s by
                simp [P0.step, hs]] at h0
              exact absurd h0 hne
          | true => exact Or.inl ⟨payload, rfl⟩
    | connClose cc =>
        by_cases hs : s.sockPresent = false
        · rw [show (P0.step s (P0.Ev.connClose cc)).1 = s by
            simp [P0.step, hs]] at h0
          exact absurd h0 hne
        · by_cases hcc : cc = some P0.loggedOutCode
          · exact Or.inr (Or.inr (Or.inl (by rw [hcc])))
          · exfalso
            have : (P0.step s (P0.Ev.connClose cc)).1.reconnectAttempts
                = s.reconnectAttempts + 1 := by simp [P0.step, hs, hcc]
            omega
    | connOpen => exact Or.inr (Or.inl rfl)
    | timerFire a =>
        exfalso
        match hp : s.pending with
        | [] =>
            rw [show (P0.step s (P0.Ev.timerFire a)).1 = s by
              simp [P0.step, hp]] at h0
            exact hne h0
        | d :: rest =>
            by_cases hm : P0.MAX_RECONNECT_ATTEMPTS ≤ s.reconnectAttempts
            · have : (P0.step s (P0.Ev.timerFire a)).1.reconnectAttempts
                  = s.reconnectAttempts := by simp [P0.step, hp, hm]
              omega
            · cases a with
              | true =>
                  have : (P0.step s (P0.Ev.timerFire true)).1.reconnectAttempts
                      = s.reconnectAttempts := by simp [P0.step, hp, hm]
                  omega
              | false =>
                  have : (P0.step s
                      (P0.Ev.timerFire false)).1.reconnectAttempts
                      = s.reconnectAttempts + 1 := by simp [P0.step, hp, hm]
                  omega
    | reset => exact Or.inr (Or.inr (Or.inr rfl))
  · simp [P0.step, hc, hs]

/-- C8 witness: a concrete zeroing event recognised through the amended
theorem, and a concrete transient increment. -/
theorem c8_witness :
    zeroingEv P0.Ev.connOpen
    ∧ (P0.step ⟨Status.connected, none, true, true, 2, []⟩
        (P0.Ev.connClose (some 500))).1.reconnectAttempts = 2 + 1 :=
  ⟨(c8_amended_counter_monotone ⟨Status.scanning, none, true, true, 2, []⟩
      P0.Ev.connOpen none).2.1 (by decide) (by decide),
   (c8_amended_counter_monotone ⟨Status.connected, none, true, true, 2, []⟩
      P0.Ev.connOpen (some 500)).2.2 (by decide) rfl⟩

/-- C9 counterexample: the `/send` handler of the variant at src/index.js
lines 519-530 (`V3`) appends `@s.whatsapp.net` unconditionally, so an already
fully-qualified identifier is not forwarded unchanged: `1@s.whatsapp.net`
is sent to `1@s.whatsapp.net@s.whatsapp.net`. -/
theorem c9_counterexample :
    (V3.sendEndpoint true Status.connected ('1' :: sWhatsappNet)
        true).attempted = some (('1' :: sWhatsappNet) ++ sWhatsappNet)
    ∧ ('1' :: sWhatsappNet) ++ sWhatsappNet ≠ '1' :: sWhatsappNet := by decide

/-- C9 amended: the conditional normalization of the part_000 `/send` handler
(and of the WPPConnect one, with suffix `@c.us`) behaves as claimed — an
identifier containing `@` is forwarded unchanged, a bare number gets the
network suffix appended — while the `V3` handler appends the suffix
unconditionally, so there a qualified identifier is not forwarded unchanged. -/
theorem c9_amended_jid_normalization (toAddr : List Char) :
    (('@') ∈ toAddr →
        P0.jidNormalize toAddr = toAddr ∧ WPP.chatIdNormalize toAddr = toAddr)
    ∧ (('@') ∉ toAddr →
        P0.jidNormalize toAddr = toAddr ++ sWhatsappNet
        ∧ WPP.chatIdNormalize toAddr = toAddr ++ WPP.cUs)
    ∧ (V3.sendEndpoint true Status.connected toAddr true).attempted
        = some (toAddr ++ sWhatsappNet) := by
  refine ⟨fun h => ?_, fun h => ?_, ?_⟩
  · simp [P0.jidNormalize, WPP.chatIdNormalize, h]
  · simp [P0.jidNormalize, WPP.chatIdNormalize, h]
  · simp [V3.sendEndpoint]

/-- C9 witness: the amended normalization evaluated at a bare number and a
qualified identifier. -/
theorem c9_witness :
    P0.jidNormalize ['1'] = ['1'] ++ sWhatsappNet
    ∧ P0.jidNormalize ('1' :: sWhatsappNet) = '1' :: sWhatsappNet :=
  ⟨((c9_amended_jid_normalization ['1']).2.1 (by decide)).1,
   ((c9_amended_jid_normalization ('1' :: sWhatsappNet)).1 (by decide)).1⟩

/-- C10: the conditional conversation-address normalization used by the
`/send` handlers (part_000 line 188, src/index.js line 151 and line 349) is
idempotent: applying it twice yields the same address as applying it once. -/
theorem c10_normalize_idempotent (toAddr : List Char) :
    P0.jidNormalize (P0.jidNormalize toAddr) = P0.jidNormalize toAddr
    ∧ V2.jidNormalize (V2.jidNormalize toAddr) = V2.jidNormalize toAddr
    ∧ WPP.chatIdNormalize (WPP.chatIdNormalize toAddr)
        = WPP.chatIdNormalize toAddr := by
  have hs : ('@') ∈ sWhatsappNet := by decide
  have hc : ('@') ∈ WPP.cUs := by decide
  refine ⟨?_, ?_, ?_⟩
  · by_cases h : ('@') ∈ toAddr
    · simp [P0.jidNormalize, h]
    · simp [P0.jidNormalize, h, List.mem_append, hs]
  · by_cases h : ('@') ∈ toAddr
    · simp [V2.jidNormalize, h]
    · simp [V2.jidNormalize, h, List.mem_append, hs]
  · by_cases h : ('@') ∈ toAddr
    · simp [WPP.chatIdNormalize, h]
    · simp [WPP.chatIdNormalize, h, List.mem_append, hc]
